import Mathlib

/-!
Shallow embedding of the single-file Redis-style server
(`src/redis_server_lab2.py`, class `RedisServer`) and proofs about its
store engine, command dispatcher and session line loop.

Modelling conventions:
* Wall-clock time (`time.time()`, a real number of seconds) is modelled at
  millisecond granularity as an integer `now : Int` counting milliseconds;
  a duration of `s` seconds is `s * 1000` model ticks.  Python's
  `int(x)` truncation toward zero on the remaining seconds
  `(e - now) / 1000` is exactly `Int.tdiv (e - now) 1000`.
* Python dicts (`self.store`, `self.expiry_times`) are association lists
  in insertion order; `dlookup`, `dinsert`, `derase` mirror `d[k]`,
  `d[k] = v` and `del d[k]`.
* Each `_cmd_*` method returns the reply string together with the updated
  server state; `_process_command` is the dispatcher; `sessionAux` is the
  newline-splitting loop of `_handle_client` applied to one received chunk.
* String helpers (`pyStrip`, `splitWhitespace`, `pyUpper`, `joinWith`,
  `pyToInt`) are structural translations of `str.strip()`, `str.split()`,
  `str.upper()`, `' '.join(...)` and `int(...)` so that every operation
  evaluates by kernel reduction.
-/

namespace Redis

/-- The whitespace characters of Python `str.strip()` / `str.split()`. -/
def pyIsSpace (c : Char) : Bool :=
  c = ' ' || c = '\t' || c = '\n' || c = '\r' || c = '\x0b' || c = '\x0c'

/-- Python `str.strip()`: drop leading and trailing whitespace. -/
def pyStrip (s : String) : String :=
  String.mk (((s.data.dropWhile pyIsSpace).reverse.dropWhile pyIsSpace).reverse)

/-- Helper for `splitWhitespace`: split a character list on runs of
whitespace, accumulating the current token reversed in `acc`. -/
def splitWsAux : List Char → List Char → List String
  | acc, [] => if acc.isEmpty then [] else [String.mk acc.reverse]
  | acc, c :: cs =>
    if pyIsSpace c then
      if acc.isEmpty then splitWsAux [] cs
      else String.mk acc.reverse :: splitWsAux [] cs
    else splitWsAux (c :: acc) cs

/-- Python `str.split()` with no separator: split on runs of whitespace,
discarding empty tokens. -/
def splitWhitespace (s : String) : List String :=
  splitWsAux [] s.data

/-- Python `str.upper()` (ASCII, as used for command names). -/
def pyUpper (s : String) : String :=
  String.mk (s.data.map Char.toUpper)

/-- Python `' '.join(xs)` and friends. -/
def joinWith (sep : String) : List String → String
  | [] => ""
  | [x] => x
  | x :: y :: xs => x ++ sep ++ joinWith sep (y :: xs)

/-- Concatenation of a list of strings (`+=` accumulation in `_cmd_keys`). -/
def concatAll : List String → String
  | [] => ""
  | x :: xs => x ++ concatAll xs

/-- Decimal digit test. -/
def isDigitChar (c : Char) : Bool := '0' ≤ c && c ≤ '9'

/-- Value of a digit run (most significant first). -/
def digitsToNat (l : List Char) : Nat :=
  l.foldl (fun n c => n * 10 + (c.toNat - '0'.toNat)) 0

/-- Python `int(s)` on a string: optional surrounding whitespace, optional
sign, then a non-empty run of decimal digits; anything else raises
`ValueError` (modelled as `none`).  Digit-group underscores are not
modelled. -/
def pyToInt (s : String) : Option Int :=
  match (pyStrip s).data with
  | '-' :: ds =>
    if ds.isEmpty then none
    else if ds.all isDigitChar then some (-(digitsToNat ds : Int)) else none
  | '+' :: ds =>
    if ds.isEmpty then none
    else if ds.all isDigitChar then some ((digitsToNat ds : Int)) else none
  | ds =>
    if ds.isEmpty then none
    else if ds.all isDigitChar then some ((digitsToNat ds : Int)) else none

/-- Dict lookup `d.get(k)` / `k in d` support: first binding of `k`. -/
def dlookup {α : Type} : List (String × α) → String → Option α
  | [], _ => none
  | p :: l, k => if p.1 = k then some p.2 else dlookup l k

/-- Dict deletion `del d[k]`: remove the binding(s) of `k`. -/
def derase {α : Type} : List (String × α) → String → List (String × α)
  | [], _ => []
  | p :: l, k => if p.1 = k then derase l k else p :: derase l k

/-- Value replacement for a key already present (in-place dict update). -/
def replaceVal {α : Type} : List (String × α) → String → α → List (String × α)
  | [], _, _ => []
  | p :: l, k, v => if p.1 = k then (k, v) :: replaceVal l k v else p :: replaceVal l k v

/-- Dict assignment `d[k] = v`: update in place if present, else append. -/
def dinsert {α : Type} (l : List (String × α)) (k : String) (v : α) : List (String × α) :=
  if (dlookup l k).isSome then replaceVal l k v else l ++ [(k, v)]

/-- The mutable state of `RedisServer` that the embedded operations touch:
`self.store`, `self.expiry_times` (absolute expiry instants, in model
ticks), `self.connected_clients`, `self.total_commands`. -/
structure RedisState where
  store : List (String × String)
  expiry_times : List (String × Int)
  connected_clients : Int
  total_commands : Nat
deriving DecidableEq, Repr

/-- The state built by `RedisServer.__init__`: empty maps, zero counters. -/
def initialState : RedisState :=
  { store := [], expiry_times := [], connected_clients := 0, total_commands := 0 }

/- ### Embedded server operations (`RedisServer` methods) -/

/-- Embeds `RedisServer._is_expired(key)`:
`key not in self.expiry_times → False; else time.time() > expiry_times[key]`. -/
def _is_expired (now : Int) (st : RedisState) (key : String) : Bool :=
  match dlookup st.expiry_times key with
  | none => false
  | some t => decide (now > t)

/-- Embeds `RedisServer._cmd_set(args)`: `SET key value...`. -/
def _cmd_set (st : RedisState) (args : List String) : String × RedisState :=
  if args.length < 2 then
    ("-ERR wrong number of arguments for 'set' command\r\n", st)
  else
    let key := args.getD 0 ""
    let value := joinWith " " (args.drop 1)
    let st := { st with store := dinsert st.store key value }
    let st :=
      if (dlookup st.expiry_times key).isSome then
        { st with expiry_times := derase st.expiry_times key }
      else st
    ("+OK\r\n", st)

/-- Embeds `RedisServer._cmd_get(args)`: `GET key`, with lazy purge of an expired
entry. -/
def _cmd_get (now : Int) (st : RedisState) (args : List String) : String × RedisState :=
  if args.length ≠ 1 then
    ("-ERR wrong number of arguments for 'get' command\r\n", st)
  else
    let key := args.getD 0 ""
    if (dlookup st.store key).isNone || _is_expired now st key then
      if _is_expired now st key then
        let st := if (dlookup st.store key).isSome then
            { st with store := derase st.store key } else st
        let st := if (dlookup st.expiry_times key).isSome then
            { st with expiry_times := derase st.expiry_times key } else st
        ("$-1\r\n", st)
      else
        ("$-1\r\n", st)
    else
      match dlookup st.store key with
      | some value => ("$" ++ toString value.length ++ "\r\n" ++ value ++ "\r\n", st)
      | none => ("$-1\r\n", st)

/-- Loop body of `_cmd_del`: `if key in store: del store[key]; deleted += 1`,
then `if key in expiry_times: del expiry_times[key]`. -/
def delStep (acc : RedisState × Nat) (key : String) : RedisState × Nat :=
  let acc :=
    if (dlookup acc.1.store key).isSome then
      ({ acc.1 with store := derase acc.1.store key }, acc.2 + 1)
    else acc
  if (dlookup acc.1.expiry_times key).isSome then
    ({ acc.1 with expiry_times := derase acc.1.expiry_times key }, acc.2)
  else acc

/-- Embeds `RedisServer._cmd_del(args)`: `DEL key [key ...]`. -/
def _cmd_del (st : RedisState) (args : List String) : String × RedisState :=
  if args.length < 1 then
    ("-ERR wrong number of arguments for 'del' command\r\n", st)
  else
    let res := args.foldl delStep (st, 0)
    (":" ++ toString res.2 ++ "\r\n", res.1)

/-- Embeds `RedisServer._cmd_expire(args)`: `EXPIRE key seconds`; the stored expiry
instant is `time.time() + seconds`, i.e. `now + seconds * 1000` model
ticks. -/
def _cmd_expire (now : Int) (st : RedisState) (args : List String) : String × RedisState :=
  if args.length ≠ 2 then
    ("-ERR wrong number of arguments for 'expire' command\r\n", st)
  else
    let key := args.getD 0 ""
    let secondsStr := args.getD 1 ""
    match pyToInt secondsStr with
    | none => ("-ERR value is not an integer or out of range\r\n", st)
    | some seconds =>
      if (dlookup st.store key).isNone || _is_expired now st key then
        (":0\r\n", st)
      else
        (":1\r\n", { st with expiry_times := dinsert st.expiry_times key (now + seconds * 1000) })

/-- Embeds `RedisServer._cmd_ttl(args)`: `TTL key`;
`int(self.expiry_times[key] - time.time())` is truncation toward zero of
the remaining seconds, i.e. `Int.tdiv (e - now) 1000`. -/
def _cmd_ttl (now : Int) (st : RedisState) (args : List String) : String × RedisState :=
  if args.length ≠ 1 then
    ("-ERR wrong number of arguments for 'ttl' command\r\n", st)
  else
    let key := args.getD 0 ""
    if (dlookup st.store key).isNone || _is_expired now st key then
      (":-2\r\n", st)
    else
      match dlookup st.expiry_times key with
      | none => (":-1\r\n", st)
      | some e =>
        let remaining := Int.tdiv (e - now) 1000
        (":" ++ toString (max 0 remaining) ++ "\r\n", st)

/-- Embeds `RedisServer._cmd_pttl(args)`: `PTTL key`;
`int((self.expiry_times[key] - time.time()) * 1000)` is exactly the
remaining model ticks `e - now`. -/
def _cmd_pttl (now : Int) (st : RedisState) (args : List String) : String × RedisState :=
  if args.length ≠ 1 then
    ("-ERR wrong number of arguments for 'pttl' command\r\n", st)
  else
    let key := args.getD 0 ""
    if (dlookup st.store key).isNone || _is_expired now st key then
      (":-2\r\n", st)
    else
      match dlookup st.expiry_times key with
      | none => (":-1\r\n", st)
      | some e =>
        let remaining_ms := e - now
        (":" ++ toString (max 0 remaining_ms) ++ "\r\n", st)

/-- The keys `_cmd_keys` lists: every store key that is not expired, in
store order. -/
def liveKeys (now : Int) (st : RedisState) : List String :=
  (st.store.map Prod.fst).filter (fun key => !(_is_expired now st key))

/-- Embeds `RedisServer._cmd_keys(args)`: `KEYS pattern` (pattern ignored; lists all
non-expired keys, without purging anything). -/
def _cmd_keys (now : Int) (st : RedisState) (_args : List String) : String × RedisState :=
  let current_keys := liveKeys now st
  if current_keys.isEmpty then
    ("*0\r\n", st)
  else
    ("*" ++ toString current_keys.length ++ "\r\n" ++
      concatAll (current_keys.map
        (fun key => "$" ++ toString key.length ++ "\r\n" ++ key ++ "\r\n")), st)

/-- Embeds `RedisServer._cmd_exists(args)`: `EXISTS key [key ...]`. -/
def _cmd_exists (now : Int) (st : RedisState) (args : List String) : String × RedisState :=
  if args.length < 1 then
    ("-ERR wrong number of arguments for 'exists' command\r\n", st)
  else
    let count := args.countP
      (fun key => (dlookup st.store key).isSome && !(_is_expired now st key))
    (":" ++ toString count ++ "\r\n", st)

/-- Embeds `RedisServer._cmd_type(args)`: `TYPE key`. -/
def _cmd_type (now : Int) (st : RedisState) (args : List String) : String × RedisState :=
  if args.length ≠ 1 then
    ("-ERR wrong number of arguments for 'type' command\r\n", st)
  else
    let key := args.getD 0 ""
    if (dlookup st.store key).isNone || _is_expired now st key then
      ("+none\r\n", st)
    else
      ("+string\r\n", st)

/-- Embeds `RedisServer._cmd_flushall()`: `FLUSHALL`. -/
def _cmd_flushall (st : RedisState) : String × RedisState :=
  ("+OK\r\n", { st with store := [], expiry_times := [] })

/-- Embeds `RedisServer._cmd_info()`: `INFO` (uptime simplified to
`int(time.time())` in the source, i.e. whole seconds of `now`). -/
def _cmd_info (now : Int) (st : RedisState) : String × RedisState :=
  let uptime := Int.tdiv now 1000
  let info := "# Server\nredis_version:1.0.0-custom\nuptime_in_seconds:"
    ++ toString uptime
    ++ "\nconnected_clients:" ++ toString st.connected_clients
    ++ "\ntotal_commands_processed:" ++ toString st.total_commands
    ++ "\n\n# Memory\nused_memory:" ++ toString st.store.length
    ++ "\n\n# Stats\ntotal_connections_received:" ++ toString st.total_commands
    ++ "\nkeyspace_hits:0\nkeyspace_misses:0\n"
  ("$" ++ toString info.length ++ "\r\n" ++ info ++ "\r\n", st)

/-- Upper-cased names of the commands the dispatcher recognises. -/
def knownCommands : List String :=
  ["SET", "GET", "DEL", "EXPIRE", "TTL", "PTTL", "PING", "ECHO", "KEYS",
   "EXISTS", "TYPE", "FLUSHALL", "INFO"]

/-- The `if/elif` dispatch chain of `RedisServer._process_command`, applied
after the counter increment: `command` is the upper-cased command name. -/
def dispatch (now : Int) (st : RedisState) (command : String) (args : List String) :
    String × RedisState :=
  if command = "SET" then _cmd_set st args
  else if command = "GET" then _cmd_get now st args
  else if command = "DEL" then _cmd_del st args
  else if command = "EXPIRE" then _cmd_expire now st args
  else if command = "TTL" then _cmd_ttl now st args
  else if command = "PTTL" then _cmd_pttl now st args
  else if command = "PING" then ("+PONG\r\n", st)
  else if command = "ECHO" then
    (if args.isEmpty then "+\r\n" else "+" ++ joinWith " " args ++ "\r\n", st)
  else if command = "KEYS" then _cmd_keys now st args
  else if command = "EXISTS" then _cmd_exists now st args
  else if command = "TYPE" then _cmd_type now st args
  else if command = "FLUSHALL" then _cmd_flushall st
  else if command = "INFO" then _cmd_info now st
  else ("-ERR unknown command '" ++ command ++ "'\r\n", st)

/-- Embeds `RedisServer._process_command(command_line)`: increments
`total_commands`, tokenises, upper-cases the command name and dispatches. -/
def _process_command (now : Int) (st : RedisState) (command_line : String) :
    String × RedisState :=
  let st := { st with total_commands := st.total_commands + 1 }
  let parts := splitWhitespace command_line
  match parts with
  | [] => ("-ERR empty command\r\n", st)
  | first :: args => dispatch now st (pyUpper first) args

/-- Loop body of `_cleanup_expired_keys`: `if key in store: del store[key]`,
then `if key in expiry_times: del expiry_times[key]`. -/
def sweepStep (s : RedisState) (key : String) : RedisState :=
  let s := if (dlookup s.store key).isSome then
      { s with store := derase s.store key } else s
  if (dlookup s.expiry_times key).isSome then
    { s with expiry_times := derase s.expiry_times key }
  else s

/-- One cycle of `RedisServer._cleanup_expired_keys` (the sweeper body run
at clock value `now`): collect the keys whose expiry has passed, then delete
each from both maps. -/
def _cleanup_expired_keys (now : Int) (st : RedisState) : RedisState :=
  let expired_keys := (st.expiry_times.filter (fun p => decide (now > p.2))).map Prod.fst
  expired_keys.foldl sweepStep st

/-- The newline-splitting loop inside `RedisServer._handle_client`, run on
one received chunk: scan the buffer, cut at each line feed, strip the line
and, when it is non-empty, process it and emit the reply. Returns the
replies in order, the final state, and the trailing partial line left in
the buffer. -/
def sessionAux (now : Int) : RedisState → List Char → List Char →
    List String × RedisState × List Char
  | st, acc, [] => ([], st, acc.reverse)
  | st, acc, c :: cs =>
    if c = '\n' then
      let command_line := pyStrip (String.mk acc.reverse)
      if command_line = "" then sessionAux now st [] cs
      else
        let pr := _process_command now st command_line
        let rest := sessionAux now pr.2 [] cs
        (pr.1 :: rest.1, rest.2)
    else
      sessionAux now st (c :: acc) cs

/-- The loop of `_handle_client` applied to one chunk of received data with an empty
prior buffer. -/
def handleChunk (now : Int) (st : RedisState) (data : String) :
    List String × RedisState × List Char :=
  sessionAux now st [] data.data

/- ### The expiry-keys-are-store-keys invariant (C9) -/

/-- Every key with an expiry entry also has a value entry. -/
def expiryKeysSub (st : RedisState) : Prop :=
  ∀ k, (dlookup st.expiry_times k).isSome = true → (dlookup st.store k).isSome = true

/-- One transition of the server state: a processed command line (at some
clock value) or one sweeper cycle. -/
inductive Step : RedisState → RedisState → Prop
  | command (now : Int) (line : String) (st : RedisState) :
      Step st (_process_command now st line).2
  | sweep (now : Int) (st : RedisState) :
      Step st (_cleanup_expired_keys now st)

/-- States reachable from the initial state by commands and sweeps. -/
inductive Reachable : RedisState → Prop
  | init : Reachable initialState
  | step {st st' : RedisState} : Reachable st → Step st st' → Reachable st'

/- ### Claim C8: pipelining -/

/-- Declarative split of a buffer at line feeds: the complete lines (before
each newline) and the trailing partial line. -/
def splitNlAux : List Char → List Char → List (List Char) × List Char
  | acc, [] => ([], acc.reverse)
  | acc, c :: cs =>
    if c = '\n' then
      let r := splitNlAux [] cs
      (acc.reverse :: r.1, r.2)
    else
      splitNlAux (c :: acc) cs

/-- The command lines the session actually processes: each complete line
stripped, empty lines dropped. -/
def goodLines (ls : List (List Char)) : List String :=
  (ls.map (fun l => pyStrip (String.mk l))).filter (fun s => s ≠ "")

/-- Processing a list of command lines in order, collecting one reply per
line. -/
def replyFold (now : Int) : RedisState → List String → List String × RedisState
  | st, [] => ([], st)
  | st, l :: ls =>
    let pr := _process_command now st l
    let rest := replyFold now pr.2 ls
    (pr.1 :: rest.1, rest.2)

/- ### Dictionary lemmas -/

theorem dlookup_derase {α : Type} (l : List (String × α)) (k k' : String) :
    dlookup (derase l k) k' = if k' = k then none else dlookup l k' := by
  induction l with
  | nil => simp [derase, dlookup]
  | cons p l ih =>
    by_cases hk : k' = k
    · subst hk
      by_cases hp : p.1 = k'
      · simpa [derase, hp] using ih
      · simpa [derase, hp, dlookup] using ih
    · by_cases hp : p.1 = k
      · have hp' : ¬ p.1 = k' := fun h => hk (h.symm.trans hp)
        rw [derase]
        simp only [hp, if_true]
        rw [ih]
        simp [hk, dlookup, hp']
      · by_cases hp' : p.1 = k'
        · simp [derase, hp, dlookup, hp', hk]
        · rw [derase]
          simp only [hp, if_false]
          rw [dlookup]
          simp only [hp', if_false]
          rw [ih]
          simp [hk, dlookup, hp']

theorem dlookup_replaceVal {α : Type} (l : List (String × α)) (k k' : String) (v : α) :
    dlookup (replaceVal l k v) k' =
      if k' = k then (if (dlookup l k).isSome then some v else none)
      else dlookup l k' := by
  induction l with
  | nil => simp [replaceVal, dlookup]
  | cons p l ih =>
    by_cases hp : p.1 = k
    · by_cases hk : k' = k
      · subst hk
        simp [replaceVal, hp, dlookup, ih]
      · have hkk : ¬ k = k' := fun h => hk h.symm
        simp [replaceVal, hp, dlookup, hk, hkk, ih]
    · by_cases hp' : p.1 = k'
      · have hk : ¬ k' = k := fun h => hp (h ▸ hp')
        simp [replaceVal, hp, dlookup, hp', hk]
      · simp [replaceVal, hp, dlookup, hp', ih]

theorem dlookup_append {α : Type} (l₁ l₂ : List (String × α)) (k : String) :
    dlookup (l₁ ++ l₂) k = ((dlookup l₁ k).orElse (fun _ => dlookup l₂ k)) := by
  induction l₁ with
  | nil => simp [dlookup]
  | cons p l ih =>
    by_cases hp : p.1 = k
    · simp [dlookup, hp]
    · simp [dlookup, hp, ih]

theorem dlookup_dinsert {α : Type} (l : List (String × α)) (k k' : String) (v : α) :
    dlookup (dinsert l k v) k' = if k' = k then some v else dlookup l k' := by
  unfold dinsert
  by_cases hc : (dlookup l k).isSome
  · simp [hc, dlookup_replaceVal]
  · rw [if_neg hc, dlookup_append]
    by_cases hk : k' = k
    · subst hk
      cases h : dlookup l k' with
      | none => simp [dlookup]
      | some w => rw [h] at hc; simp at hc
    · have hkk : ¬ k = k' := fun h => hk h.symm
      cases h : dlookup l k' with
      | none => simp [dlookup, hk, hkk]
      | some w => simp [hk]

/- ### Basic facts about the operations -/

theorem is_expired_isSome {now : Int} {st : RedisState} {key : String}
    (h : _is_expired now st key = true) : (dlookup st.expiry_times key).isSome := by
  unfold _is_expired at h
  cases he : dlookup st.expiry_times key with
  | none => rw [he] at h; simp at h
  | some t => simp

theorem is_expired_none {now : Int} {st : RedisState} {key : String}
    (h : dlookup st.expiry_times key = none) : _is_expired now st key = false := by
  unfold _is_expired
  rw [h]

/-- Command `TTL` never mutates the state. -/
theorem state_cmd_ttl (now : Int) (st : RedisState) (args : List String) :
    (_cmd_ttl now st args).2 = st := by
  simp only [_cmd_ttl]
  split
  · rfl
  · split
    · rfl
    · split <;> rfl

/-- Command `PTTL` never mutates the state. -/
theorem state_cmd_pttl (now : Int) (st : RedisState) (args : List String) :
    (_cmd_pttl now st args).2 = st := by
  simp only [_cmd_pttl]
  split
  · rfl
  · split
    · rfl
    · split <;> rfl

/-- Command `EXISTS` never mutates the state. -/
theorem state_cmd_exists (now : Int) (st : RedisState) (args : List String) :
    (_cmd_exists now st args).2 = st := by
  simp only [_cmd_exists]
  split <;> rfl

/-- Command `TYPE` never mutates the state. -/
theorem state_cmd_type (now : Int) (st : RedisState) (args : List String) :
    (_cmd_type now st args).2 = st := by
  simp only [_cmd_type]
  split
  · rfl
  · split <;> rfl

/-- Command `KEYS` never mutates the state (the "clean up" comment in the source
notwithstanding, it only reads). -/
theorem state_cmd_keys (now : Int) (st : RedisState) (args : List String) :
    (_cmd_keys now st args).2 = st := by
  simp only [_cmd_keys]
  split <;> rfl

/-- Command `INFO` never mutates the state. -/
theorem state_cmd_info (now : Int) (st : RedisState) :
    (_cmd_info now st).2 = st := rfl

theorem total_cmd_set (st : RedisState) (args : List String) :
    (_cmd_set st args).2.total_commands = st.total_commands := by
  simp only [_cmd_set]
  split
  · rfl
  · split <;> rfl

theorem total_cmd_get (now : Int) (st : RedisState) (args : List String) :
    (_cmd_get now st args).2.total_commands = st.total_commands := by
  simp only [_cmd_get]
  split
  · rfl
  · split
    · split
      · split <;> split <;> rfl
      · rfl
    · split <;> rfl

theorem total_delStep (acc : RedisState × Nat) (key : String) :
    (delStep acc key).1.total_commands = acc.1.total_commands := by
  simp only [delStep]
  split <;> split <;> rfl

theorem total_del_foldl (args : List String) (acc : RedisState × Nat) :
    (args.foldl delStep acc).1.total_commands = acc.1.total_commands := by
  induction args generalizing acc with
  | nil => rfl
  | cons a as ih => rw [List.foldl_cons, ih, total_delStep]

theorem total_cmd_del (st : RedisState) (args : List String) :
    (_cmd_del st args).2.total_commands = st.total_commands := by
  simp only [_cmd_del]
  split
  · rfl
  · exact total_del_foldl args (st, 0)

theorem total_cmd_expire (now : Int) (st : RedisState) (args : List String) :
    (_cmd_expire now st args).2.total_commands = st.total_commands := by
  simp only [_cmd_expire]
  split
  · rfl
  · split
    · rfl
    · split <;> rfl

theorem total_cmd_flushall (st : RedisState) :
    (_cmd_flushall st).2.total_commands = st.total_commands := rfl

/-- Dispatching never changes `total_commands`. -/
theorem total_dispatch (now : Int) (st : RedisState) (command : String)
    (args : List String) :
    (dispatch now st command args).2.total_commands = st.total_commands := by
  simp only [dispatch]
  by_cases h1 : command = "SET"
  · rw [if_pos h1]
    rw [total_cmd_set]
  · rw [if_neg h1]
    by_cases h2 : command = "GET"
    · rw [if_pos h2]
      rw [total_cmd_get]
    · rw [if_neg h2]
      by_cases h3 : command = "DEL"
      · rw [if_pos h3]
        rw [total_cmd_del]
      · rw [if_neg h3]
        by_cases h4 : command = "EXPIRE"
        · rw [if_pos h4]
          rw [total_cmd_expire]
        · rw [if_neg h4]
          by_cases h5 : command = "TTL"
          · rw [if_pos h5]
            rw [state_cmd_ttl]
          · rw [if_neg h5]
            by_cases h6 : command = "PTTL"
            · rw [if_pos h6]
              rw [state_cmd_pttl]
            · rw [if_neg h6]
              by_cases h7 : command = "PING"
              · rw [if_pos h7]
              · rw [if_neg h7]
                by_cases h8 : command = "ECHO"
                · rw [if_pos h8]
                · rw [if_neg h8]
                  by_cases h9 : command = "KEYS"
                  · rw [if_pos h9]
                    rw [state_cmd_keys]
                  · rw [if_neg h9]
                    by_cases h10 : command = "EXISTS"
                    · rw [if_pos h10]
                      rw [state_cmd_exists]
                    · rw [if_neg h10]
                      by_cases h11 : command = "TYPE"
                      · rw [if_pos h11]
                        rw [state_cmd_type]
                      · rw [if_neg h11]
                        by_cases h12 : command = "FLUSHALL"
                        · rw [if_pos h12]
                          rw [total_cmd_flushall]
                        · rw [if_neg h12]
                          by_cases h13 : command = "INFO"
                          · rw [if_pos h13]
                            rw [state_cmd_info]
                          · rw [if_neg h13]

/-- Processing a line increments `total_commands` by exactly one, on every
input line (empty, erroneous or not). -/
theorem total_process_command (now : Int) (st : RedisState) (line : String) :
    (_process_command now st line).2.total_commands = st.total_commands + 1 := by
  rcases h : splitWhitespace line with _ | ⟨first, args⟩
  · simp only [_process_command, h]
  · simp only [_process_command, h]
    rw [total_dispatch]

theorem inv_initial : expiryKeysSub initialState := by
  intro k hk
  simp [initialState, dlookup] at hk

theorem inv_cmd_set (st : RedisState) (args : List String)
    (h : expiryKeysSub st) : expiryKeysSub (_cmd_set st args).2 := by
  simp only [_cmd_set]
  split
  · exact h
  · split
    · intro k hk
      simp only [dlookup_derase] at hk
      simp only [dlookup_dinsert]
      by_cases hkk : k = args.getD 0 ""
      · simp [hkk]
      · simp only [hkk, if_false] at hk ⊢
        exact h k hk
    · intro k hk
      simp only at hk
      simp only [dlookup_dinsert]
      by_cases hkk : k = args.getD 0 ""
      · simp [hkk]
      · simp only [hkk, if_false]
        exact h k hk

theorem inv_cmd_get (now : Int) (st : RedisState) (args : List String)
    (h : expiryKeysSub st) : expiryKeysSub (_cmd_get now st args).2 := by
  simp only [_cmd_get]
  split
  · exact h
  · split
    · split
      · split
        · split
          · intro k hk
            simp only [dlookup_derase] at hk ⊢
            by_cases hkk : k = args.getD 0 ""
            · simp [hkk] at hk
            · simp only [hkk, if_false] at hk ⊢
              exact h k hk
          · intro k hk
            simp only at hk
            simp only [dlookup_derase]
            by_cases hkk : k = args.getD 0 ""
            · exfalso
              rename_i hnexp
              rw [hkk] at hk
              exact hnexp (by simpa using hk)
            · simp only [hkk, if_false]
              exact h k hk
        · split
          · intro k hk
            simp only [dlookup_derase] at hk
            by_cases hkk : k = args.getD 0 ""
            · simp [hkk] at hk
            · simp only [hkk, if_false] at hk
              exact h k hk
          · exact h
      · exact h
    · split
      · exact h
      · exact h

theorem inv_delStep (acc : RedisState × Nat) (key : String)
    (h : expiryKeysSub acc.1) : expiryKeysSub (delStep acc key).1 := by
  simp only [delStep]
  split
  · split
    · intro k hk
      simp only [dlookup_derase] at hk ⊢
      by_cases hkk : k = key
      · simp [hkk] at hk
      · simp only [hkk, if_false] at hk ⊢
        exact h k hk
    · intro k hk
      simp only at hk
      simp only [dlookup_derase]
      by_cases hkk : k = key
      · exfalso
        rename_i hnexp
        rw [hkk] at hk
        exact hnexp (by simpa using hk)
      · simp only [hkk, if_false]
        exact h k hk
  · split
    · intro k hk
      simp only [dlookup_derase] at hk
      by_cases hkk : k = key
      · simp [hkk] at hk
      · simp only [hkk, if_false] at hk
        exact h k hk
    · exact h

theorem inv_sweepStep (s : RedisState) (key : String)
    (h : expiryKeysSub s) : expiryKeysSub (sweepStep s key) := by
  simp only [sweepStep]
  split
  · split
    · intro k hk
      simp only [dlookup_derase] at hk ⊢
      by_cases hkk : k = key
      · simp [hkk] at hk
      · simp only [hkk, if_false] at hk ⊢
        exact h k hk
    · intro k hk
      simp only at hk
      simp only [dlookup_derase]
      by_cases hkk : k = key
      · exfalso
        rename_i hnexp
        rw [hkk] at hk
        exact hnexp (by simpa using hk)
      · simp only [hkk, if_false]
        exact h k hk
  · split
    · intro k hk
      simp only [dlookup_derase] at hk
      by_cases hkk : k = key
      · simp [hkk] at hk
      · simp only [hkk, if_false] at hk
        exact h k hk
    · exact h

theorem inv_del_foldl (args : List String) (acc : RedisState × Nat)
    (h : expiryKeysSub acc.1) : expiryKeysSub ((args.foldl delStep acc).1) := by
  induction args generalizing acc with
  | nil => exact h
  | cons a as ih =>
    rw [List.foldl_cons]
    exact ih (delStep acc a) (inv_delStep acc a h)

theorem inv_cmd_del (st : RedisState) (args : List String)
    (h : expiryKeysSub st) : expiryKeysSub (_cmd_del st args).2 := by
  simp only [_cmd_del]
  split
  · exact h
  · exact inv_del_foldl args (st, 0) h

theorem inv_cmd_expire (now : Int) (st : RedisState) (args : List String)
    (h : expiryKeysSub st) : expiryKeysSub (_cmd_expire now st args).2 := by
  simp only [_cmd_expire]
  split
  · exact h
  · split
    · exact h
    · split
      · exact h
      · intro k hk
        simp only [dlookup_dinsert] at hk
        by_cases hkk : k = args.getD 0 ""
        · rename_i hguard
          simp only [Bool.or_eq_true, not_or] at hguard
          have : ¬ (dlookup st.store (args.getD 0 "")).isNone = true := hguard.1
          simp only [Option.isNone_iff_eq_none] at this
          rw [hkk]
          cases hs : dlookup st.store (args.getD 0 "") with
          | none => exact absurd hs this
          | some v => rfl
        · simp only [hkk, if_false] at hk
          exact h k hk

theorem inv_cmd_flushall (st : RedisState) :
    expiryKeysSub (_cmd_flushall st).2 := by
  intro k hk
  simp [_cmd_flushall, dlookup] at hk

theorem inv_dispatch (now : Int) (st : RedisState) (command : String)
    (args : List String) (h : expiryKeysSub st) :
    expiryKeysSub (dispatch now st command args).2 := by
  simp only [dispatch]
  by_cases h1 : command = "SET"
  · rw [if_pos h1]
    exact inv_cmd_set st args h
  · rw [if_neg h1]
    by_cases h2 : command = "GET"
    · rw [if_pos h2]
      exact inv_cmd_get now st args h
    · rw [if_neg h2]
      by_cases h3 : command = "DEL"
      · rw [if_pos h3]
        exact inv_cmd_del st args h
      · rw [if_neg h3]
        by_cases h4 : command = "EXPIRE"
        · rw [if_pos h4]
          exact inv_cmd_expire now st args h
        · rw [if_neg h4]
          by_cases h5 : command = "TTL"
          · rw [if_pos h5, state_cmd_ttl]
            exact h
          · rw [if_neg h5]
            by_cases h6 : command = "PTTL"
            · rw [if_pos h6, state_cmd_pttl]
              exact h
            · rw [if_neg h6]
              by_cases h7 : command = "PING"
              · rw [if_pos h7]
                exact h
              · rw [if_neg h7]
                by_cases h8 : command = "ECHO"
                · rw [if_pos h8]
                  exact h
                · rw [if_neg h8]
                  by_cases h9 : command = "KEYS"
                  · rw [if_pos h9, state_cmd_keys]
                    exact h
                  · rw [if_neg h9]
                    by_cases h10 : command = "EXISTS"
                    · rw [if_pos h10, state_cmd_exists]
                      exact h
                    · rw [if_neg h10]
                      by_cases h11 : command = "TYPE"
                      · rw [if_pos h11, state_cmd_type]
                        exact h
                      · rw [if_neg h11]
                        by_cases h12 : command = "FLUSHALL"
                        · rw [if_pos h12]
                          exact inv_cmd_flushall st
                        · rw [if_neg h12]
                          by_cases h13 : command = "INFO"
                          · rw [if_pos h13, state_cmd_info]
                            exact h
                          · rw [if_neg h13]
                            exact h

theorem inv_process_command (now : Int) (st : RedisState) (line : String)
    (h : expiryKeysSub st) : expiryKeysSub (_process_command now st line).2 := by
  have hstep : expiryKeysSub { st with total_commands := st.total_commands + 1 } := h
  rcases hsp : splitWhitespace line with _ | ⟨first, args⟩
  · simp only [_process_command, hsp]
    exact hstep
  · simp only [_process_command, hsp]
    exact inv_dispatch now _ (pyUpper first) args hstep

theorem inv_cleanup (now : Int) (st : RedisState) (h : expiryKeysSub st) :
    expiryKeysSub (_cleanup_expired_keys now st) := by
  simp only [_cleanup_expired_keys]
  generalize (List.map Prod.fst (List.filter (fun p => decide (now > p.2)) st.expiry_times)) = keys
  induction keys generalizing st with
  | nil => exact h
  | cons a as ih =>
    rw [List.foldl_cons]
    exact ih (sweepStep st a) (inv_sweepStep st a h)

/- ### Single-key behaviour lemmas -/

theorem getD_single (k : String) : ([k].getD 0 "") = k := rfl

theorem get_live (now : Int) (st : RedisState) (k v : String)
    (hs : dlookup st.store k = some v) (he : _is_expired now st k = false) :
    _cmd_get now st [k] = ("$" ++ toString v.length ++ "\r\n" ++ v ++ "\r\n", st) := by
  simp only [_cmd_get, getD_single]
  rw [if_neg (by simp)]
  rw [if_neg (by simp [hs, he])]
  rw [hs]

theorem get_expired (now : Int) (st : RedisState) (k : String)
    (hs : (dlookup st.store k).isSome = true) (he : _is_expired now st k = true) :
    _cmd_get now st [k] =
      ("$-1\r\n",
       { st with store := derase st.store k, expiry_times := derase st.expiry_times k }) := by
  simp only [_cmd_get, getD_single]
  rw [if_neg (by simp)]
  rw [if_pos (by simp [he])]
  rw [if_pos he]
  rw [if_pos hs]
  rw [if_pos (by simpa using is_expired_isSome he)]

theorem ttl_dead (now : Int) (st : RedisState) (k : String)
    (h : (dlookup st.store k).isNone = true ∨ _is_expired now st k = true) :
    _cmd_ttl now st [k] = (":-2\r\n", st) := by
  simp only [_cmd_ttl, getD_single]
  rw [if_neg (by simp)]
  rw [if_pos (by simpa using h)]

theorem ttl_permanent (now : Int) (st : RedisState) (k : String)
    (hs : (dlookup st.store k).isSome = true) (he : dlookup st.expiry_times k = none) :
    _cmd_ttl now st [k] = (":-1\r\n", st) := by
  have hsn := Option.isSome_iff_ne_none.mp hs
  simp only [_cmd_ttl, getD_single]
  rw [if_neg (by simp)]
  rw [if_neg (by simp [hsn, is_expired_none he])]
  rw [he]

theorem ttl_timed (now : Int) (st : RedisState) (k : String) (e : Int)
    (hs : (dlookup st.store k).isSome = true)
    (hexp : dlookup st.expiry_times k = some e)
    (hne : _is_expired now st k = false) :
    _cmd_ttl now st [k] = (":" ++ toString (max 0 (Int.tdiv (e - now) 1000)) ++ "\r\n", st) := by
  have hsn := Option.isSome_iff_ne_none.mp hs
  simp only [_cmd_ttl, getD_single]
  rw [if_neg (by simp)]
  rw [if_neg (by simp [hsn, hne])]
  rw [hexp]

theorem pttl_dead (now : Int) (st : RedisState) (k : String)
    (h : (dlookup st.store k).isNone = true ∨ _is_expired now st k = true) :
    _cmd_pttl now st [k] = (":-2\r\n", st) := by
  simp only [_cmd_pttl, getD_single]
  rw [if_neg (by simp)]
  rw [if_pos (by simpa using h)]

theorem exists_single_dead (now : Int) (st : RedisState) (k : String)
    (h : (dlookup st.store k).isSome = false ∨ _is_expired now st k = true) :
    _cmd_exists now st [k] = (":0\r\n", st) := by
  have hcount :
      List.countP (fun key => (dlookup st.store key).isSome && !(_is_expired now st key)) [k]
        = 0 := by
    rcases h with h | h <;> simp [List.countP, List.countP.go, h]
  simp only [_cmd_exists]
  rw [if_neg (by simp), hcount]
  rfl

theorem type_dead (now : Int) (st : RedisState) (k : String)
    (h : (dlookup st.store k).isNone = true ∨ _is_expired now st k = true) :
    _cmd_type now st [k] = ("+none\r\n", st) := by
  simp only [_cmd_type, getD_single]
  rw [if_neg (by simp)]
  rw [if_pos (by simpa using h)]

theorem expire_live (now : Int) (st : RedisState) (k sstr : String) (s : Int)
    (hp : pyToInt sstr = some s)
    (hs : (dlookup st.store k).isSome = true)
    (hne : _is_expired now st k = false) :
    _cmd_expire now st [k, sstr] =
      (":1\r\n", { st with expiry_times := dinsert st.expiry_times k (now + s * 1000) }) := by
  simp only [_cmd_expire]
  rw [if_neg (by simp)]
  have h0 : ([k, sstr].getD 0 "") = k := rfl
  have h1 : ([k, sstr].getD 1 "") = sstr := rfl
  rw [h0, h1, hp]
  have hsn := Option.isSome_iff_ne_none.mp hs
  dsimp only
  rw [if_neg (by simp [hsn, hne])]

theorem set_state (st : RedisState) (k v : String) :
    (_cmd_set st [k, v]).1 = "+OK\r\n" ∧
    dlookup (_cmd_set st [k, v]).2.store k = some v ∧
    dlookup (_cmd_set st [k, v]).2.expiry_times k = none := by
  simp only [_cmd_set]
  rw [if_neg (by simp)]
  have h0 : ([k, v].getD 0 "") = k := rfl
  have hj : joinWith " " ([k, v].drop 1) = v := rfl
  rw [h0, hj]
  split
  · refine ⟨rfl, ?_, ?_⟩
    · simp [dlookup_dinsert]
    · simp [dlookup_derase]
  · rename_i hnone
    refine ⟨rfl, ?_, ?_⟩
    · simp [dlookup_dinsert]
    · simpa using hnone

/- ### Claim C2: expiry boundary semantics of GET -/

/-- C2 (corrected): for a key `k` with stored value `v` and recorded expiry
instant `t`, `GET k` observed at time `now` returns the stored value iff the
expiry has not strictly passed (`now ≤ t`); only when `now > t` does it
return the null bulk reply and physically remove both the value entry and
the expiry entry.  (The claim's "only if `t` is strictly in the future" is
off by one at `now = t`: the source tests `time.time() > expiry`.) -/
theorem C2_get_expiry_boundary (now t : Int) (st : RedisState) (k v : String)
    (hs : dlookup st.store k = some v)
    (ht : dlookup st.expiry_times k = some t) :
    (now ≤ t →
      _cmd_get now st [k] = ("$" ++ toString v.length ++ "\r\n" ++ v ++ "\r\n", st)) ∧
    (t < now →
      _cmd_get now st [k] =
        ("$-1\r\n",
         { st with store := derase st.store k, expiry_times := derase st.expiry_times k })) := by
  constructor
  · intro hle
    apply get_live now st k v hs
    unfold _is_expired
    rw [ht]
    simpa using not_lt.mpr hle
  · intro hlt
    apply get_expired now st k
    · rw [hs]; rfl
    · unfold _is_expired
      rw [ht]
      simpa using hlt

/-- C2 counterexample: with value "1" stored for "a" and expiry instant
exactly equal to the observation time (`now = t = 10000`), the expiry is not
strictly in the future, yet `GET a` returns the stored value rather than the
null bulk reply the claim requires. -/
theorem C2_counterexample :
    ¬ ((10000 : Int) < 10000) ∧
    _cmd_get 10000 (⟨[("a", "1")], [("a", 10000)], 0, 0⟩ : RedisState) ["a"]
      = ("$1\r\n1\r\n", (⟨[("a", "1")], [("a", 10000)], 0, 0⟩ : RedisState)) ∧
    ("$1\r\n1\r\n" : String) ≠ "$-1\r\n" := by
  refine ⟨by decide, by decide, by decide⟩

/- ### Claim C3: SET produces a permanent entry -/

/-- C3 (confirmed): after `SET k v`, an immediate `GET k` (at any
observation time) returns `v`, and `TTL k` returns -1: a fresh SET clears
any prior expiry, producing a permanent entry. -/
theorem C3_set_then_get (now : Int) (st : RedisState) (k v : String) :
    (_cmd_set st [k, v]).1 = "+OK\r\n" ∧
    dlookup (_cmd_set st [k, v]).2.expiry_times k = none ∧
    (_cmd_get now (_cmd_set st [k, v]).2 [k]).1
      = "$" ++ toString v.length ++ "\r\n" ++ v ++ "\r\n" ∧
    (_cmd_ttl now (_cmd_set st [k, v]).2 [k]).1 = ":-1\r\n" := by
  obtain ⟨hok, hstore, hexp⟩ := set_state st k v
  refine ⟨hok, hexp, ?_, ?_⟩
  · rw [get_live now _ k v hstore (is_expired_none hexp)]
  · rw [ttl_permanent now _ k (by rw [hstore]; rfl) hexp]

/- ### Claim C4: EXPIRE with non-positive seconds -/

/-- C4 (corrected): `EXPIRE k s` on a live key with `s ≤ 0` returns 1, and
any `GET k` / `EXISTS k` at an observation instant `now'` with `now' ≥ now`
that is strictly later than the stored expiry `now + s*1000` — that is, any
strictly later instant, or even the same instant when `s < 0` — reports the
key absent.  (At the very same instant with `s = 0` the key is still
observed live, because the source tests `time.time() > expiry` strictly;
this is the one point where the original claim fails.) -/
theorem C4_expire_nonpositive (now now' : Int) (st : RedisState)
    (k sstr v : String) (s : Int)
    (hp : pyToInt sstr = some s)
    (hs : dlookup st.store k = some v)
    (hne : _is_expired now st k = false)
    (hsle : s ≤ 0)
    (hle : now ≤ now')
    (hstrict : s < 0 ∨ now < now') :
    (_cmd_expire now st [k, sstr]).1 = ":1\r\n" ∧
    (_cmd_get now' (_cmd_expire now st [k, sstr]).2 [k]).1 = "$-1\r\n" ∧
    (_cmd_exists now' (_cmd_expire now st [k, sstr]).2 [k]).1 = ":0\r\n" := by
  have hss : (dlookup st.store k).isSome = true := by rw [hs]; rfl
  rw [expire_live now st k sstr s hp hss hne]
  have hexp' : _is_expired now'
      { st with expiry_times := dinsert st.expiry_times k (now + s * 1000) } k = true := by
    unfold _is_expired
    simp only [dlookup_dinsert, if_pos rfl]
    have : now + s * 1000 < now' := by
      rcases hstrict with h | h <;> omega
    simpa using this
  refine ⟨rfl, ?_, ?_⟩
  · rw [get_expired now' _ k (by simpa using hss) hexp']
  · rw [exists_single_dead now' _ k (Or.inr hexp')]

/-- C4 counterexample: `EXPIRE a 0` on a live key returns 1, but at the very
same instant (`now' = now`) the key is still observed live: `GET a` returns
the stored value and `EXISTS a` returns 1, contradicting the claim's "at
every later observation time including the same instant". -/
theorem C4_counterexample :
    (_cmd_expire 0 (⟨[("a", "1")], [], 0, 0⟩ : RedisState) ["a", "0"]).1 = ":1\r\n" ∧
    (_cmd_get 0 (_cmd_expire 0 (⟨[("a", "1")], [], 0, 0⟩ : RedisState) ["a", "0"]).2 ["a"]).1
      = "$1\r\n1\r\n" ∧
    ("$1\r\n1\r\n" : String) ≠ "$-1\r\n" ∧
    (_cmd_exists 0 (_cmd_expire 0 (⟨[("a", "1")], [], 0, 0⟩ : RedisState) ["a", "0"]).2 ["a"]).1
      = ":1\r\n" := by
  refine ⟨by decide, by decide, by decide, by decide⟩

/- ### Claim C5: TTL truncation -/

/-- C5 (corrected): `TTL k` returns -2 for an absent or expired key, -1 for
a live key without expiry, and otherwise `max 0` of the remaining whole
seconds truncated toward zero — which, the remaining time of a live key
being non-negative, is the floor of the remaining seconds (the reported
value `r` satisfies `1000*r ≤ e - now < 1000*r + 1000`), not the ceiling
the claim states; the result is never negative. -/
theorem C5_ttl_truncation (now : Int) (st : RedisState) (k : String) :
    ((dlookup st.store k).isNone = true ∨ _is_expired now st k = true →
      _cmd_ttl now st [k] = (":-2\r\n", st)) ∧
    ((dlookup st.store k).isSome = true → dlookup st.expiry_times k = none →
      _cmd_ttl now st [k] = (":-1\r\n", st)) ∧
    (∀ e : Int, (dlookup st.store k).isSome = true →
      dlookup st.expiry_times k = some e → _is_expired now st k = false →
      _cmd_ttl now st [k]
        = (":" ++ toString (max 0 (Int.tdiv (e - now) 1000)) ++ "\r\n", st) ∧
      0 ≤ max 0 (Int.tdiv (e - now) 1000) ∧
      1000 * max 0 (Int.tdiv (e - now) 1000) ≤ e - now ∧
      e - now < 1000 * max 0 (Int.tdiv (e - now) 1000) + 1000) := by
  refine ⟨ttl_dead now st k, ttl_permanent now st k, ?_⟩
  intro e hsome hexp hne
  have hd : 0 ≤ e - now := by
    unfold _is_expired at hne
    rw [hexp] at hne
    simp only [decide_eq_false_iff_not, not_lt] at hne
    omega
  have htd : (e - now).tdiv 1000 = (e - now) / 1000 :=
    Int.tdiv_eq_ediv hd (by norm_num)
  have hq : 0 ≤ (e - now) / 1000 := Int.ediv_nonneg hd (by norm_num)
  have hmax : max 0 (Int.tdiv (e - now) 1000) = (e - now) / 1000 := by
    rw [htd]
    exact max_eq_right hq
  have h1 := Int.ediv_add_emod (e - now) 1000
  have h2 := Int.emod_nonneg (e - now) (by norm_num : (1000 : Int) ≠ 0)
  have h3 := Int.emod_lt_of_pos (e - now) (by norm_num : (0 : Int) < 1000)
  refine ⟨ttl_timed now st k e hsome hexp hne, ?_, ?_, ?_⟩ <;> rw [hmax] <;> omega

/-- C5 counterexample: with 2500 milliseconds remaining (a non-integral
2.5 seconds), `TTL` reports 2 — the truncation/floor — while the ceiling
the claim demands would be 3. -/
theorem C5_counterexample :
    (_cmd_ttl 8000 (⟨[("a", "x")], [("a", 10500)], 0, 0⟩ : RedisState) ["a"]).1 = ":2\r\n" ∧
    2 * 1000 < 10500 - 8000 ∧ 10500 - 8000 < 3 * 1000 ∧
    (":2\r\n" : String) ≠ ":3\r\n" := by
  refine ⟨by decide, by decide, by decide, by decide⟩

/- ### Claim C10: read-only commands do not purge expired entries -/

/-- C10 (confirmed): on a key physically present but already expired, `TTL`
and `PTTL` answer -2, `EXISTS` counts 0, `TYPE` answers "none" and `KEYS`
excludes the key — all without touching either map; among the read paths
only `GET` physically removes the stale entry from both maps. -/
theorem C10_lazy_reads_frame (now : Int) (st : RedisState) (k v : String)
    (hs : dlookup st.store k = some v)
    (he : _is_expired now st k = true) :
    _cmd_ttl now st [k] = (":-2\r\n", st) ∧
    _cmd_pttl now st [k] = (":-2\r\n", st) ∧
    _cmd_exists now st [k] = (":0\r\n", st) ∧
    _cmd_type now st [k] = ("+none\r\n", st) ∧
    k ∉ liveKeys now st ∧
    (_cmd_keys now st [k]).2 = st ∧
    (_cmd_get now st [k]).2 =
      { st with store := derase st.store k, expiry_times := derase st.expiry_times k } := by
  refine ⟨ttl_dead now st k (Or.inr he), pttl_dead now st k (Or.inr he),
    exists_single_dead now st k (Or.inr he), type_dead now st k (Or.inr he),
    ?_, state_cmd_keys now st [k], ?_⟩
  · intro hmem
    have := (List.mem_filter.mp hmem).2
    rw [he] at this
    simp at this
  · rw [get_expired now st k (by rw [hs]; rfl) he]

/- ### Claim C1: DEL counts physical presence, not liveness -/

theorem delStep_snd (acc : RedisState × Nat) (key : String) :
    (delStep acc key).2 = acc.2 + (if (dlookup acc.1.store key).isSome = true then 1 else 0) := by
  simp only [delStep]
  split
  · split <;> rfl
  · split <;> simp

theorem delStep_store (acc : RedisState × Nat) (key k : String) (h : k ≠ key) :
    dlookup (delStep acc key).1.store k = dlookup acc.1.store k := by
  simp only [delStep]
  split
  · split
    · simp only [dlookup_derase, h, if_false]
    · simp only [dlookup_derase, h, if_false]
  · split
    · rfl
    · rfl

theorem del_fold_count (args : List String) (acc : RedisState × Nat)
    (hnd : args.Nodup) :
    (args.foldl delStep acc).2
      = acc.2 + args.countP (fun j => (dlookup acc.1.store j).isSome) := by
  induction args generalizing acc with
  | nil => simp [List.countP, List.countP.go]
  | cons a as ih =>
    rw [List.foldl_cons]
    rw [List.nodup_cons] at hnd
    rw [ih (delStep acc a) hnd.2]
    have hcong : as.countP (fun j => (dlookup (delStep acc a).1.store j).isSome)
        = as.countP (fun j => (dlookup acc.1.store j).isSome) := by
      apply List.countP_congr
      intro j hj
      have hja : j ≠ a := fun hh => hnd.1 (hh ▸ hj)
      rw [delStep_store acc a j hja]
    rw [hcong, delStep_snd, List.countP_cons]
    omega

/-- C1 (corrected): the count `DEL` returns is the number of argument keys
physically present in the value map when that argument is processed
(duplicate-free argument lists counted against the initial map): a key that
is still physically present but already expired counts 1, exactly like a
live key — not the 0 the claim (and the spec's chosen convention) assigns
to it; only an absent key contributes 0. -/
theorem C1_del_count (st : RedisState) (args : List String)
    (hne : args ≠ []) (hnd : args.Nodup) :
    (_cmd_del st args).1
      = ":" ++ toString (args.countP (fun j => (dlookup st.store j).isSome)) ++ "\r\n" := by
  simp only [_cmd_del]
  rw [if_neg (by cases args with | nil => exact absurd rfl hne | cons a as => simp)]
  rw [del_fold_count args (st, 0) hnd, Nat.zero_add]

/-- C1 counterexample: key "a" is physically present but its expiry (5000)
has passed at observation time 10000; `DEL a` nevertheless returns 1, where
the claim requires an expired key to contribute 0 like an absent one. -/
theorem C1_counterexample :
    _is_expired 10000 (⟨[("a", "1")], [("a", 5000)], 0, 0⟩ : RedisState) "a" = true ∧
    (_cmd_del (⟨[("a", "1")], [("a", 5000)], 0, 0⟩ : RedisState) ["a"]).1 = ":1\r\n" ∧
    (":1\r\n" : String) ≠ ":0\r\n" := by
  refine ⟨by decide, by decide, by decide⟩

/- ### Claim C6: the command counter and unknown commands -/

/-- C6 (confirmed): processing any command line increments the
total-commands counter by exactly one — including error replies — and a
line whose (upper-cased) command name is not recognised yields exactly
`-ERR unknown command '<CMD>'\r\n` while leaving the two maps (indeed the
whole state except the counter) unchanged. -/
theorem C6_counter_unknown (now : Int) (st : RedisState) (line : String) :
    (_process_command now st line).2.total_commands = st.total_commands + 1 ∧
    (∀ first args, splitWhitespace line = first :: args →
      pyUpper first ∉ knownCommands →
      _process_command now st line =
        ("-ERR unknown command '" ++ pyUpper first ++ "'\r\n",
         { st with total_commands := st.total_commands + 1 })) := by
  refine ⟨total_process_command now st line, ?_⟩
  intro first args hsp hn
  simp only [knownCommands, List.mem_cons, List.not_mem_nil, or_false] at hn
  push_neg at hn
  obtain ⟨n1, n2, n3, n4, n5, n6, n7, n8, n9, n10, n11, n12, n13⟩ := hn
  simp only [_process_command, hsp, dispatch]
  rw [if_neg n1, if_neg n2, if_neg n3, if_neg n4, if_neg n5, if_neg n6, if_neg n7,
    if_neg n8, if_neg n9, if_neg n10, if_neg n11, if_neg n12, if_neg n13]

/- ### Claim C7: arity validation -/

/-- C7 (corrected): for each command that validates arity — `GET` (≠ 1
argument), `SET` (< 2), `EXPIRE` (≠ 2), `DEL` (none), `EXISTS` (none),
`TTL` (≠ 1), `PTTL` (≠ 1), `TYPE` (≠ 1) — an argument-count violation
yields the "wrong number of arguments for '<cmd>' command" error reply and
the state (value map and expiry map included) is returned exactly
unchanged.  `PING`, `FLUSHALL` and `INFO`, whose declared arity is 0,
perform no arity check at all: the dispatcher handles them normally
whatever the argument count, so there the original universal claim fails
(no error is ever produced). -/
theorem C7_arity_validation (now : Int) (st : RedisState) :
    (∀ args : List String, args.length ≠ 1 →
      _cmd_get now st args = ("-ERR wrong number of arguments for 'get' command\r\n", st)) ∧
    (∀ args : List String, args.length < 2 →
      _cmd_set st args = ("-ERR wrong number of arguments for 'set' command\r\n", st)) ∧
    (∀ args : List String, args.length ≠ 2 →
      _cmd_expire now st args
        = ("-ERR wrong number of arguments for 'expire' command\r\n", st)) ∧
    (∀ args : List String, args.length < 1 →
      _cmd_del st args = ("-ERR wrong number of arguments for 'del' command\r\n", st)) ∧
    (∀ args : List String, args.length < 1 →
      _cmd_exists now st args
        = ("-ERR wrong number of arguments for 'exists' command\r\n", st)) ∧
    (∀ args : List String, args.length ≠ 1 →
      _cmd_ttl now st args = ("-ERR wrong number of arguments for 'ttl' command\r\n", st)) ∧
    (∀ args : List String, args.length ≠ 1 →
      _cmd_pttl now st args
        = ("-ERR wrong number of arguments for 'pttl' command\r\n", st)) ∧
    (∀ args : List String, args.length ≠ 1 →
      _cmd_type now st args
        = ("-ERR wrong number of arguments for 'type' command\r\n", st)) ∧
    (∀ args : List String, dispatch now st "PING" args = ("+PONG\r\n", st)) ∧
    (∀ args : List String, dispatch now st "FLUSHALL" args = _cmd_flushall st) ∧
    (∀ args : List String, dispatch now st "INFO" args = _cmd_info now st) := by
  have nPing1 : ("PING" : String) ≠ "SET" := by decide
  have nPing2 : ("PING" : String) ≠ "GET" := by decide
  have nPing3 : ("PING" : String) ≠ "DEL" := by decide
  have nPing4 : ("PING" : String) ≠ "EXPIRE" := by decide
  have nPing5 : ("PING" : String) ≠ "TTL" := by decide
  have nPing6 : ("PING" : String) ≠ "PTTL" := by decide
  have nFl1 : ("FLUSHALL" : String) ≠ "SET" := by decide
  have nFl2 : ("FLUSHALL" : String) ≠ "GET" := by decide
  have nFl3 : ("FLUSHALL" : String) ≠ "DEL" := by decide
  have nFl4 : ("FLUSHALL" : String) ≠ "EXPIRE" := by decide
  have nFl5 : ("FLUSHALL" : String) ≠ "TTL" := by decide
  have nFl6 : ("FLUSHALL" : String) ≠ "PTTL" := by decide
  have nFl7 : ("FLUSHALL" : String) ≠ "PING" := by decide
  have nFl8 : ("FLUSHALL" : String) ≠ "ECHO" := by decide
  have nFl9 : ("FLUSHALL" : String) ≠ "KEYS" := by decide
  have nFl10 : ("FLUSHALL" : String) ≠ "EXISTS" := by decide
  have nFl11 : ("FLUSHALL" : String) ≠ "TYPE" := by decide
  have nIn1 : ("INFO" : String) ≠ "SET" := by decide
  have nIn2 : ("INFO" : String) ≠ "GET" := by decide
  have nIn3 : ("INFO" : String) ≠ "DEL" := by decide
  have nIn4 : ("INFO" : String) ≠ "EXPIRE" := by decide
  have nIn5 : ("INFO" : String) ≠ "TTL" := by decide
  have nIn6 : ("INFO" : String) ≠ "PTTL" := by decide
  have nIn7 : ("INFO" : String) ≠ "PING" := by decide
  have nIn8 : ("INFO" : String) ≠ "ECHO" := by decide
  have nIn9 : ("INFO" : String) ≠ "KEYS" := by decide
  have nIn10 : ("INFO" : String) ≠ "EXISTS" := by decide
  have nIn11 : ("INFO" : String) ≠ "TYPE" := by decide
  have nIn12 : ("INFO" : String) ≠ "FLUSHALL" := by decide
  refine ⟨?_, ?_, ?_, ?_, ?_, ?_, ?_, ?_, ?_, ?_, ?_⟩
  · intro args h
    simp only [_cmd_get]
    rw [if_pos h]
  · intro args h
    simp only [_cmd_set]
    rw [if_pos h]
  · intro args h
    simp only [_cmd_expire]
    rw [if_pos h]
  · intro args h
    simp only [_cmd_del]
    rw [if_pos h]
  · intro args h
    simp only [_cmd_exists]
    rw [if_pos h]
  · intro args h
    simp only [_cmd_ttl]
    rw [if_pos h]
  · intro args h
    simp only [_cmd_pttl]
    rw [if_pos h]
  · intro args h
    simp only [_cmd_type]
    rw [if_pos h]
  · intro args
    simp only [dispatch]
    rw [if_neg nPing1, if_neg nPing2, if_neg nPing3, if_neg nPing4, if_neg nPing5,
      if_neg nPing6, if_pos trivial]
  · intro args
    simp only [dispatch]
    rw [if_neg nFl1, if_neg nFl2, if_neg nFl3, if_neg nFl4, if_neg nFl5, if_neg nFl6,
      if_neg nFl7, if_neg nFl8, if_neg nFl9, if_neg nFl10, if_neg nFl11, if_pos trivial]
  · intro args
    simp only [dispatch]
    rw [if_neg nIn1, if_neg nIn2, if_neg nIn3, if_neg nIn4, if_neg nIn5, if_neg nIn6,
      if_neg nIn7, if_neg nIn8, if_neg nIn9, if_neg nIn10, if_neg nIn11, if_neg nIn12,
      if_pos trivial]

/-- C7 counterexample: the spec's arity table declares `PING` to take no
arguments, yet the dispatcher performs no arity check for it: the full
command line "PING x" is answered with `+PONG` (only the counter changes),
not with a wrong-number-of-arguments error — so the claim's universal
scope over every command whose argument count violates its declared arity
fails. -/
theorem C7_counterexample :
    _process_command 0 initialState "PING x"
      = ("+PONG\r\n",
         { initialState with total_commands := initialState.total_commands + 1 }) ∧
    ("+PONG\r\n" : String) ≠ "-ERR wrong number of arguments for 'ping' command\r\n" := by
  refine ⟨by decide, by decide⟩

theorem goodLines_cons (l : List Char) (ls : List (List Char)) :
    goodLines (l :: ls) =
      if pyStrip (String.mk l) = "" then goodLines ls
      else pyStrip (String.mk l) :: goodLines ls := by
  simp only [goodLines, List.map_cons, List.filter_cons]
  by_cases h : pyStrip (String.mk l) = ""
  · simp [h]
  · simp [h]

/-- The session loop is the declarative pipeline: split the buffer at line
feeds, strip each complete line, drop the empty ones, and fold
`_process_command` over what remains, one reply per line, in order; the
trailing partial line stays in the buffer. -/
theorem sessionAux_spec (now : Int) : ∀ (cs acc : List Char) (st : RedisState),
    sessionAux now st acc cs =
      ((replyFold now st (goodLines (splitNlAux acc cs).1)).1,
       (replyFold now st (goodLines (splitNlAux acc cs).1)).2,
       (splitNlAux acc cs).2) := by
  intro cs
  induction cs with
  | nil =>
    intro acc st
    rfl
  | cons c cs ih =>
    intro acc st
    by_cases hc : c = '\n'
    · subst hc
      simp only [sessionAux, splitNlAux, eq_self_iff_true, if_true]
      rw [goodLines_cons]
      by_cases hline : pyStrip (String.mk acc.reverse) = ""
      · rw [if_pos hline, if_pos hline]
        exact ih [] st
      · rw [if_neg hline, if_neg hline]
        simp only [replyFold]
        rw [ih [] (_process_command now st (pyStrip (String.mk acc.reverse))).2]
    · simp only [sessionAux, if_neg hc, splitNlAux]
      exact ih (c :: acc) st

theorem replyFold_length (now : Int) (ls : List String) : ∀ st : RedisState,
    (replyFold now st ls).1.length = ls.length := by
  induction ls with
  | nil => intro st; rfl
  | cons l ls ih =>
    intro st
    simp only [replyFold, List.length_cons]
    rw [ih]

theorem replyFold_total (now : Int) (ls : List String) : ∀ st : RedisState,
    (replyFold now st ls).2.total_commands = st.total_commands + ls.length := by
  induction ls with
  | nil => intro st; rfl
  | cons l ls ih =>
    intro st
    simp only [replyFold, List.length_cons]
    rw [ih, total_process_command]
    omega

/-- C8 (confirmed): a chunk holding several newline-delimited command lines
produces exactly one reply per non-empty (after stripping) line, in line
order; empty lines produce no reply and no counter increment; and the
concrete pipelined input `"SET a 1\nGET a\n"` yields exactly
`+OK\r\n` then `$1\r\n1\r\n`. -/
theorem C8_session_pipelining (now : Int) (st : RedisState) (data : String) :
    (handleChunk now st data).1
      = (replyFold now st (goodLines (splitNlAux [] data.data).1)).1 ∧
    (handleChunk now st data).1.length
      = (goodLines (splitNlAux [] data.data).1).length ∧
    (handleChunk now st data).2.1.total_commands
      = st.total_commands + (goodLines (splitNlAux [] data.data).1).length ∧
    (handleChunk 0 initialState "SET a 1\nGET a\n").1 = ["+OK\r\n", "$1\r\n1\r\n"] := by
  have h := sessionAux_spec now data.data [] st
  refine ⟨?_, ?_, ?_, by decide⟩
  · rw [handleChunk, h]
  · rw [handleChunk, h, replyFold_length]
  · rw [handleChunk, h]
    exact replyFold_total now (goodLines (splitNlAux [] data.data).1) st

/- ### Claim C9: the expiry-keys invariant holds in every reachable state -/

/-- C9 (confirmed): starting from the empty initial state, every state
reachable through processed command lines and sweeper cycles satisfies the
invariant that each key with an expiry entry also has a value entry. -/
theorem C9_reachable_invariant (st : RedisState) (h : Reachable st) :
    expiryKeysSub st := by
  induction h with
  | init => exact inv_initial
  | step _ hs ih =>
    cases hs with
    | command now line st => exact inv_process_command _ _ _ ih
    | sweep now st => exact inv_cleanup _ _ ih

/- ### Witnesses -/

theorem C1_witness :
    (_cmd_del (⟨[("a", "1")], [("a", 5000)], 0, 0⟩ : RedisState) ["a", "b"]).1
      = ":" ++ toString ((["a", "b"] : List String).countP
          (fun j => (dlookup (⟨[("a", "1")], [("a", 5000)], 0, 0⟩ : RedisState).store j).isSome))
        ++ "\r\n" :=
  C1_del_count (⟨[("a", "1")], [("a", 5000)], 0, 0⟩ : RedisState) ["a", "b"]
    (by decide) (by decide)

theorem C2_witness :
    _cmd_get 10000 (⟨[("a", "1")], [("a", 10000)], 0, 0⟩ : RedisState) ["a"]
      = ("$" ++ toString ("1" : String).length ++ "\r\n" ++ "1" ++ "\r\n",
         (⟨[("a", "1")], [("a", 10000)], 0, 0⟩ : RedisState)) :=
  (C2_get_expiry_boundary 10000 10000 (⟨[("a", "1")], [("a", 10000)], 0, 0⟩ : RedisState)
    "a" "1" (by decide) (by decide)).1 (by decide)

theorem C4_witness :
    (_cmd_expire 0 (⟨[("a", "1")], [], 0, 0⟩ : RedisState) ["a", "0"]).1 = ":1\r\n" ∧
    (_cmd_get 1000
      (_cmd_expire 0 (⟨[("a", "1")], [], 0, 0⟩ : RedisState) ["a", "0"]).2 ["a"]).1
      = "$-1\r\n" ∧
    (_cmd_exists 1000
      (_cmd_expire 0 (⟨[("a", "1")], [], 0, 0⟩ : RedisState) ["a", "0"]).2 ["a"]).1
      = ":0\r\n" :=
  C4_expire_nonpositive 0 1000 (⟨[("a", "1")], [], 0, 0⟩ : RedisState) "a" "0" "1" 0
    (by decide) (by decide) (by decide) (by decide) (by decide) (Or.inr (by decide))

theorem C5_witness :
    _cmd_ttl 8000 (⟨[("a", "x")], [("a", 10500)], 0, 0⟩ : RedisState) ["a"]
      = (":" ++ toString (max 0 (Int.tdiv ((10500 : Int) - 8000) 1000)) ++ "\r\n",
         (⟨[("a", "x")], [("a", 10500)], 0, 0⟩ : RedisState)) ∧
    1000 * max 0 (Int.tdiv ((10500 : Int) - 8000) 1000) ≤ 10500 - 8000 :=
  have h := (C5_ttl_truncation 8000 (⟨[("a", "x")], [("a", 10500)], 0, 0⟩ : RedisState) "a").2.2
    10500 (by decide) (by decide) (by decide)
  ⟨h.1, h.2.2.1⟩

theorem C6_witness :
    _process_command 0 initialState "foo bar"
      = ("-ERR unknown command '" ++ pyUpper "foo" ++ "'\r\n",
         { initialState with total_commands := initialState.total_commands + 1 }) :=
  (C6_counter_unknown 0 initialState "foo bar").2 "foo" ["bar"] (by decide) (by decide)

theorem C7_witness :
    _cmd_get 0 initialState []
      = ("-ERR wrong number of arguments for 'get' command\r\n", initialState) ∧
    _cmd_set initialState ["k"]
      = ("-ERR wrong number of arguments for 'set' command\r\n", initialState) ∧
    _cmd_expire 0 initialState ["k"]
      = ("-ERR wrong number of arguments for 'expire' command\r\n", initialState) ∧
    _cmd_del initialState []
      = ("-ERR wrong number of arguments for 'del' command\r\n", initialState) ∧
    _cmd_exists 0 initialState []
      = ("-ERR wrong number of arguments for 'exists' command\r\n", initialState) ∧
    _cmd_ttl 0 initialState []
      = ("-ERR wrong number of arguments for 'ttl' command\r\n", initialState) ∧
    _cmd_pttl 0 initialState []
      = ("-ERR wrong number of arguments for 'pttl' command\r\n", initialState) ∧
    _cmd_type 0 initialState []
      = ("-ERR wrong number of arguments for 'type' command\r\n", initialState) ∧
    dispatch 0 initialState "PING" ["x"] = ("+PONG\r\n", initialState) ∧
    dispatch 0 initialState "FLUSHALL" ["x"] = _cmd_flushall initialState ∧
    dispatch 0 initialState "INFO" ["x"] = _cmd_info 0 initialState := by
  obtain ⟨hget, hset, hexp, hdel, hex, httl, hpttl, htype, hping, hflush, hinfo⟩ :=
    C7_arity_validation 0 initialState
  exact ⟨hget [] (by decide), hset ["k"] (by decide), hexp ["k"] (by decide),
    hdel [] (by decide), hex [] (by decide), httl [] (by decide),
    hpttl [] (by decide), htype [] (by decide), hping ["x"], hflush ["x"], hinfo ["x"]⟩

theorem C9_witness :
    expiryKeysSub (_process_command 0 initialState "SET a 1").2 :=
  C9_reachable_invariant (_process_command 0 initialState "SET a 1").2
    (Reachable.step Reachable.init (Step.command 0 "SET a 1" initialState))

theorem C10_witness :
    _cmd_ttl 10000 (⟨[("a", "1")], [("a", 5000)], 0, 0⟩ : RedisState) ["a"]
      = (":-2\r\n", (⟨[("a", "1")], [("a", 5000)], 0, 0⟩ : RedisState)) ∧
    (_cmd_get 10000 (⟨[("a", "1")], [("a", 5000)], 0, 0⟩ : RedisState) ["a"]).2
      = { (⟨[("a", "1")], [("a", 5000)], 0, 0⟩ : RedisState) with
          store := derase (⟨[("a", "1")], [("a", 5000)], 0, 0⟩ : RedisState).store "a",
          expiry_times :=
            derase (⟨[("a", "1")], [("a", 5000)], 0, 0⟩ : RedisState).expiry_times "a" } :=
  have h := C10_lazy_reads_frame 10000 (⟨[("a", "1")], [("a", 5000)], 0, 0⟩ : RedisState)
    "a" "1" (by decide) (by decide)
  ⟨h.1, h.2.2.2.2.2.2⟩

end Redis
